import Mathlib

/-!
Shallow embedding of the webdav-handler request dispatcher
(`src/davhandler.rs`) and the MKCOL method handler (`src/handle_mkcol.rs`),
together with the parts of the repository they use that live outside those
two files (path model, error type, allowed-method set, filesystem and
lock-store interfaces, conditional evaluator), which are modelled from the
specification.  Bodies are streams of byte chunks; machine strings are Lean
`String`s; the `unwrap()` panic in `From<&DavConfig> for DavInner` is
modelled as `Option.none`.  Backend interaction is made observable by
threading an explicit call trace (a spy backend) through the handlers.
-/

namespace Webdav

/-- HTTP status codes, as naturals (e.g. 405 for METHOD_NOT_ALLOWED). -/
abbrev StatusCode := Nat

/-- Modelled from the spec: the closed WebDAV operation enum produced by the
Method Classifier (`util.rs` is outside `src/`). -/
inductive Method
  | Options | PropFind | PropPatch | MkCol | Delete | Lock | Unlock
  | Head | Get | Put | Patch | Copy | Move
deriving DecidableEq, Repr

/-- Modelled from the spec: `AllowedMethods`, a set over the closed operation
enum with O(1) membership (`util.rs` is outside `src/`).  Represented by its
membership function. -/
structure AllowedMethods where
  mem : Method → Bool

/-- Membership test (`AllowedMethods::allowed`). -/
def AllowedMethods.allowed (a : AllowedMethods) (m : Method) : Bool := a.mem m

/-- The empty set (`AllowedMethods::none`). -/
def AllowedMethods.nothing : AllowedMethods := ⟨fun _ => false⟩

/-- Insertion (`AllowedMethods::add`). -/
def AllowedMethods.add (a : AllowedMethods) (m : Method) : AllowedMethods :=
  ⟨fun x => x == m || a.mem x⟩

/-- Modelled from the spec: the backend error taxonomy `FsError`
(`fs.rs` is outside `src/`): NotFound, Exists, and an opaque "other"
variant carrying no structure the dispatcher inspects. -/
inductive FsError
  | NotFound
  | Exists
  | Other (code : Nat)
deriving DecidableEq, Repr

/-- Modelled from the spec: the engine's typed error union `DavError`
(`errors.rs` is outside `src/`): `Status(code)`, `StatusClose(code)`
(status plus mandatory connection close), `IoError(cause)`,
`FsError(backend error)`. -/
inductive DavError
  | Status (code : StatusCode)
  | StatusClose (code : StatusCode)
  | IoError (cause : Nat)
  | FsErrorE (e : FsError)
deriving DecidableEq, Repr

/-- Modelled from the spec: `DavError::statuscode`, the mapping from the
typed error to the HTTP status line; backend errors map 1:1 to
404/405/5xx-class codes, transport errors to a 5xx-class code. -/
def DavError.statuscode : DavError → StatusCode
  | .Status c => c
  | .StatusClose c => c
  | .IoError _ => 502
  | .FsErrorE .NotFound => 404
  | .FsErrorE .Exists => 405
  | .FsErrorE (.Other _) => 500

/-- Modelled from the spec: `DavError::must_close`; `StatusClose` carries a
mandatory connection close, and transport/body I/O errors force connection
closure because the framing state is no longer trustworthy. -/
def DavError.must_close : DavError → Bool
  | .StatusClose _ => true
  | .IoError _ => true
  | _ => false

/- Character-level string helpers (kept executable by kernel reduction). -/

/-- Does the first list start with the second? -/
def starts_with_chars : List Char → List Char → Bool
  | _, [] => true
  | [], _ :: _ => false
  | c :: cs, p :: ps => c == p && starts_with_chars cs ps

/-- Does the list contain the pattern as a contiguous sublist? -/
def has_substr_chars (pat : List Char) : List Char → Bool
  | [] => starts_with_chars [] pat
  | c :: rest => starts_with_chars (c :: rest) pat || has_substr_chars pat rest

/-- `s.contains(pat)` on strings. -/
def str_contains (s pat : String) : Bool := has_substr_chars pat.data s.data

/-- Split a character list on a separator character. -/
def split_chars (sep : Char) : List Char → List (List Char)
  | [] => [[]]
  | c :: rest =>
    let r := split_chars sep rest
    if c == sep then [] :: r
    else
      match r with
      | [] => [[c]]
      | h :: t => (c :: h) :: t

/-- Join path segments with `/` separators. -/
def join_segs : List String → String
  | [] => ""
  | [s] => s
  | s :: rest => s ++ "/" ++ join_segs rest

/-- Modelled from the spec: `DavPath` (`davpath.rs` is outside `src/`):
normalized segment sequence, a collection flag (trailing-slash semantics),
and the configured strip-prefix it was derived from.  Percent-escaping is
elided: segments hold decoded text. -/
structure DavPath where
  segs : List String
  coll : Bool
  pfx : String
deriving DecidableEq, Repr

/-- `DavPath::is_collection`: trailing-slash form. -/
def DavPath.is_collection (p : DavPath) : Bool := p.coll

/-- `DavPath::add_slash`: force collection form. -/
def DavPath.add_slash (p : DavPath) : DavPath := { p with coll := true }

/-- `DavPath::with_prefix().as_url_string()` /
`DavPath::as_url_string_with_pfx`: re-serialize the path with the
configured prefix, with a trailing slash exactly when in collection form. -/
def DavPath.as_url_string_with_pfx (p : DavPath) : String :=
  p.pfx ++ "/" ++ join_segs p.segs ++ (if p.coll then "/" else "")

/-- Modelled from the spec: `DavPath::from_uri` (`davpath.rs` is outside
`src/`): produce a `DavPath` or fail with a 400-class status if the URI
does not begin with the prefix.  Collection-ness is inferred from a
trailing slash in the URI. -/
def DavPath.from_uri (uri : String) (pfx : String) : Except DavError DavPath :=
  if starts_with_chars uri.data pfx.data then
    let rest : List Char := uri.data.drop pfx.data.length
    let coll : Bool := rest.getLast? == some '/'
    let segs : List String :=
      ((split_chars '/' rest).filter (fun l => !l.isEmpty)).map String.mk
    .ok { segs := segs, coll := coll, pfx := pfx }
  else
    .error (.Status 400)

/-- Modelled from the spec: resource metadata; `Meta` exposes at least
`is_dir()` (`fs.rs` is outside `src/`). -/
structure DavMetaData where
  dir : Bool
deriving DecidableEq, Repr

/-- `DavMetaData::is_dir`. -/
def DavMetaData.is_dir (m : DavMetaData) : Bool := m.dir

/-- Modelled from the spec: the filesystem backend contract
(`fs.rs` is outside `src/`): `metadata` and `create_dir`; the further
read/write/delete/rename operations are not detailed by the specified
interface and are elided.  `void` tags the inert "no filesystem" backend
so that `is_voidfs` is expressible. -/
structure DavFileSystem where
  metadata : DavPath → Except FsError DavMetaData
  create_dir : DavPath → Except FsError Unit
  void : Bool := false

/-- Modelled from the spec: the inert `VoidFs` backend that answers
"not found" / "method not allowed" to everything (`voidfs.rs` is outside
`src/`). -/
def VoidFs : DavFileSystem :=
  { metadata := fun _ => .error .NotFound
    create_dir := fun _ => .error (.Other 405)
    void := true }

/-- Modelled from the spec: `is_voidfs` recognises the inert backend
(`voidfs.rs` is outside `src/`). -/
def is_voidfs (fs : DavFileSystem) : Bool := fs.void

/-- Modelled from the spec: the lock-store backend contract
(`ls.rs` is outside `src/`):
`check(path, principal, exclusive, recursive, tokens)` succeeds or reports
a lock conflict. -/
structure DavLockSystem where
  check : DavPath → Option String → Bool → Bool → List String →
    Except Unit Unit

/-- A request body is a stream of chunk results: each element is either a
byte chunk or a transport error. -/
abbrev BodyChunk := Except Unit (List Nat)

/-- The request as seen by the dispatcher: raw HTTP method token, URI,
headers, and the outcome of the Conditional/Lock Evaluator for this
request's conditional headers.  The evaluator itself
(`if_match_get_tokens`, `conditional.rs`) is outside `src/` and is
modelled from the spec as an oracle recorded on the request: it yields the
list of lock tokens the request asserts, or a 4xx status that
short-circuits the request. -/
structure Request where
  method : String
  uri : String
  headers : List (String × String)
  condTokens : Except StatusCode (List String)

/-- Modelled from the spec: the Method Classifier `dav_method`
(`util.rs` is outside `src/`): maps an HTTP method token to the closed
operation enum; unrecognized tokens fail with 405. -/
def dav_method (m : String) : Except DavError Method :=
  match m with
  | "OPTIONS" => .ok .Options
  | "PROPFIND" => .ok .PropFind
  | "PROPPATCH" => .ok .PropPatch
  | "MKCOL" => .ok .MkCol
  | "DELETE" => .ok .Delete
  | "LOCK" => .ok .Lock
  | "UNLOCK" => .ok .Unlock
  | "HEAD" => .ok .Head
  | "GET" => .ok .Get
  | "PUT" => .ok .Put
  | "PATCH" => .ok .Patch
  | "COPY" => .ok .Copy
  | "MOVE" => .ok .Move
  | _ => .error (.Status 405)

/-- A response: status, headers in insertion order, body bytes. -/
structure Response where
  status : StatusCode := 200
  headers : List (String × String) := []
  body : List Nat := []
deriving DecidableEq, Repr

/-- One backend call, for the spy trace. -/
inductive FsCall
  | metadata (p : DavPath)
  | create_dir (p : DavPath)
deriving DecidableEq, Repr

/-- `DavConfig` (src/davhandler.rs lines 37-51): all fields optional.
`pfx` renders the source field `prefix` (a Lean keyword). -/
structure DavConfig where
  pfx : Option String := none
  fs : Option DavFileSystem := none
  ls : Option DavLockSystem := none
  allow : Option AllowedMethods := none
  principal : Option String := none
  hide_symlinks : Option Bool := none

/-- `DavConfig::merge` (src/davhandler.rs lines 107-116): field-wise, the
override's field (`new`) wins when present, else the base's is kept. -/
def DavConfig.merge (self : DavConfig) (new : DavConfig) : DavConfig :=
  { pfx := new.pfx.or self.pfx
    fs := new.fs.or self.fs
    ls := new.ls.or self.ls
    allow := new.allow.or self.allow
    principal := new.principal.or self.principal
    hide_symlinks := new.hide_symlinks.or self.hide_symlinks }

/-- `DavInner` (src/davhandler.rs lines 123-130): the resolved per-request
context. -/
structure DavInner where
  pfx : String
  fs : DavFileSystem
  ls : Option DavLockSystem
  allow : Option AllowedMethods
  principal : Option String
  hide_symlinks : Option Bool

/-- `impl From<DavConfig> for DavInner` (src/davhandler.rs lines 132-143):
a missing filesystem defaults to the inert `VoidFs`. -/
def DavInner.fromConfig (cfg : DavConfig) : DavInner :=
  { pfx := cfg.pfx.getD ""
    fs := cfg.fs.getD VoidFs
    ls := cfg.ls
    allow := cfg.allow
    principal := cfg.principal
    hide_symlinks := cfg.hide_symlinks }

/-- `impl From<&DavConfig> for DavInner` (src/davhandler.rs lines 145-160):
this conversion runs `cfg.fs.clone().unwrap()`, which panics when no
filesystem is configured; the panic is modelled as `none`. -/
def DavInner.fromConfigRef (cfg : DavConfig) : Option DavInner :=
  match cfg.fs with
  | none => none
  | some fs =>
    some
      { pfx := cfg.pfx.getD ""
        fs := fs
        ls := cfg.ls
        allow := cfg.allow
        principal := cfg.principal
        hide_symlinks := cfg.hide_symlinks }

/-- Loop of `DavInner::read_request` (src/davhandler.rs lines 321-332):
fold the chunk stream into a buffer; a transport error maps to an
`IoError`, and a chunk that would push the buffer past `max_size` fails
with 413 without being appended. -/
def read_request_loop (max_size : Nat) (data : List Nat) :
    List BodyChunk → Except DavError (List Nat)
  | [] => .ok data
  | res :: rest =>
    match res with
    | .error _ => .error (.IoError 0)
    | .ok chunk =>
      if data.length + chunk.length > max_size then .error (.Status 413)
      else read_request_loop max_size (data ++ chunk) rest

/-- `DavInner::read_request` (src/davhandler.rs lines 312-333): drain the
request body up to `max_size` bytes. -/
def read_request (body : List BodyChunk) (max_size : Nat) :
    Except DavError (List Nat) :=
  read_request_loop max_size [] body

/-- `DavInner::path` (src/davhandler.rs lines 288-291): re-derive the
`DavPath` from the request; the source notes this cannot fail because the
URI was validated earlier, so the failure arm is dead. -/
def DavInner.path (self : DavInner) (req : Request) : DavPath :=
  match DavPath.from_uri req.uri self.pfx with
  | .ok p => p
  | .error _ => { segs := [], coll := false, pfx := self.pfx }

/-- `DavInner::fixpath` (src/davhandler.rs lines 295-309): the shared
post-processing fixup — when the metadata is a directory and the path is
not yet in collection form, add the slash and set a Content-Location
header with the prefix-qualified URL. -/
def DavInner.fixpath (res : Response) (path : DavPath) (meta : DavMetaData) :
    Response × DavPath × DavMetaData :=
  if meta.is_dir && !path.is_collection then
    let path2 := path.add_slash
    ({ res with
        headers :=
          res.headers ++ [("content-location", path2.as_url_string_with_pfx)] },
      path2, meta)
  else (res, path, meta)

/-- Tail of `handle_mkcol` (src/handle_mkcol.rs lines 41-57): the
`create_dir` call and the mapping of its result; on success the handler
sets Content-Location inline, keyed on `path.is_collection()`. -/
def DavInner.mkcol_create (self : DavInner) (path : DavPath)
    (calls : List FsCall) : Except DavError Response × List FsCall :=
  let calls := calls ++ [FsCall.create_dir path]
  match self.fs.create_dir path with
  | .error .NotFound => (.error (.Status 409), calls)
  | .error .Exists => (.error (.Status 405), calls)
  | .error e => (.error (.FsErrorE e), calls)
  | .ok _ =>
    let res : Response := { status := 200, headers := [], body := [] }
    if path.is_collection then
      let path := path.add_slash
      let res :=
        { res with
            headers :=
              res.headers ++
                [("content-location", path.as_url_string_with_pfx)] }
      (.ok { res with status := 201 }, calls)
    else
      (.ok { res with status := 201 }, calls)

/-- `DavInner::handle_mkcol` (src/handle_mkcol.rs lines 17-59): resolve the
path, fetch metadata, run the Conditional/Lock Evaluator, check the lock
store if one is configured, then create the directory. -/
def DavInner.handle_mkcol (self : DavInner) (req : Request) :
    Except DavError Response × List FsCall :=
  let path := self.path req
  let calls : List FsCall := [FsCall.metadata path]
  match req.condTokens with
  | .error s => (.error (.Status s), calls)
  | .ok tokens =>
    match self.ls with
    | some locksystem =>
      match locksystem.check path self.principal false false tokens with
      | .error _ => (.error (.Status 423), calls)
      | .ok _ => self.mkcol_create path calls
    | none => self.mkcol_create path calls

/-- The method names, for the OPTIONS `Allow` header. -/
def Method.name : Method → String
  | .Options => "OPTIONS"
  | .PropFind => "PROPFIND"
  | .PropPatch => "PROPPATCH"
  | .MkCol => "MKCOL"
  | .Delete => "DELETE"
  | .Lock => "LOCK"
  | .Unlock => "UNLOCK"
  | .Head => "HEAD"
  | .Get => "GET"
  | .Put => "PUT"
  | .Patch => "PATCH"
  | .Copy => "COPY"
  | .Move => "MOVE"

/-- All operations, in declaration order. -/
def Method.all : List Method :=
  [.Options, .PropFind, .PropPatch, .MkCol, .Delete, .Lock, .Unlock,
   .Head, .Get, .Put, .Patch, .Copy, .Move]

/-- Join strings with `", "` separators. -/
def join_commas : List String → String
  | [] => ""
  | [s] => s
  | s :: rest => s ++ ", " ++ join_commas rest

/-- Modelled from the spec: the OPTIONS handler (`handle_options` is
outside `src/`): no backend access; it returns the effective
allowed-methods set as a header (absent set means "all methods"). -/
def DavInner.handle_options (self : DavInner) (_req : Request) :
    Except DavError Response × List FsCall :=
  let methods := Method.all.filter
    (fun m => (self.allow.map (fun a => a.allowed m)).getD true)
  (.ok { status := 200
         headers := [("allow", join_commas (methods.map Method.name))]
         body := [] }, [])

/-- Modelled from the spec: the PROPFIND handler (outside `src/`): requires
the resource to exist; wraps the property result in 207 Multi-Status. -/
def DavInner.handle_propfind (self : DavInner) (req : Request)
    (_body_data : List Nat) : Except DavError Response × List FsCall :=
  let path := self.path req
  match self.fs.metadata path with
  | .error e => (.error (.FsErrorE e), [FsCall.metadata path])
  | .ok _ => (.ok { status := 207 }, [FsCall.metadata path])

/-- Modelled from the spec: the PROPPATCH handler (outside `src/`):
metadata-mutating variant of PROPFIND; requires the resource to exist,
runs the Conditional/Lock Evaluator, answers 207. -/
def DavInner.handle_proppatch (self : DavInner) (req : Request)
    (_body_data : List Nat) : Except DavError Response × List FsCall :=
  let path := self.path req
  match self.fs.metadata path with
  | .error e => (.error (.FsErrorE e), [FsCall.metadata path])
  | .ok _ =>
    match req.condTokens with
    | .error s => (.error (.Status s), [FsCall.metadata path])
    | .ok _ => (.ok { status := 207 }, [FsCall.metadata path])

/-- Modelled from the spec: the DELETE handler (outside `src/`): metadata,
evaluator, lock check, then the delete mutation (elided from the specified
backend interface), answering 204. -/
def DavInner.handle_delete (self : DavInner) (req : Request) :
    Except DavError Response × List FsCall :=
  let path := self.path req
  let calls : List FsCall := [FsCall.metadata path]
  match req.condTokens with
  | .error s => (.error (.Status s), calls)
  | .ok tokens =>
    match self.ls with
    | some locksystem =>
      match locksystem.check path self.principal false true tokens with
      | .error _ => (.error (.Status 423), calls)
      | .ok _ => (.ok { status := 204 }, calls)
    | none => (.ok { status := 204 }, calls)

/-- Modelled from the spec: the LOCK handler (outside `src/`): creates a
lock entry keyed by path and principal; a conflicting lock yields 423. -/
def DavInner.handle_lock (self : DavInner) (req : Request)
    (_body_data : List Nat) : Except DavError Response × List FsCall :=
  let path := self.path req
  match req.condTokens with
  | .error s => (.error (.Status s), [])
  | .ok tokens =>
    match self.ls with
    | some locksystem =>
      match locksystem.check path self.principal true false tokens with
      | .error _ => (.error (.Status 423), [])
      | .ok _ => (.ok { status := 200 }, [])
    | none => (.error (.Status 405), [])

/-- Modelled from the spec: the UNLOCK handler (outside `src/`): releases a
lock entry. -/
def DavInner.handle_unlock (self : DavInner) (_req : Request) :
    Except DavError Response × List FsCall :=
  match self.ls with
  | some _ => (.ok { status := 204 }, [])
  | none => (.error (.Status 405), [])

/-- Modelled from the spec: the GET/HEAD handler (outside `src/`):
read-only stream of backend content; a missing resource maps through the
error taxonomy to 404. -/
def DavInner.handle_get (self : DavInner) (req : Request) :
    Except DavError Response × List FsCall :=
  let path := self.path req
  match self.fs.metadata path with
  | .error e => (.error (.FsErrorE e), [FsCall.metadata path])
  | .ok _ => (.ok { status := 200 }, [FsCall.metadata path])

/-- Modelled from the spec: the PUT/PATCH handler (outside `src/`): streams
the raw body into the backend (the write operation is elided from the
specified interface); a body-stream error is fatal to the request and maps
to a close-forcing transport error. -/
def DavInner.handle_put (self : DavInner) (req : Request)
    (body : List BodyChunk) : Except DavError Response × List FsCall :=
  let path := self.path req
  match req.condTokens with
  | .error s => (.error (.Status s), [])
  | .ok tokens =>
    let lockFailed :=
      match self.ls with
      | some locksystem =>
        match locksystem.check path self.principal false false tokens with
        | .error _ => true
        | .ok _ => false
      | none => false
    if lockFailed then (.error (.Status 423), [])
    else if body.any (fun c => match c with | .error _ => true | .ok _ => false) then
      (.error (.IoError 0), [])
    else (.ok { status := 201 }, [])

/-- Modelled from the spec: the COPY/MOVE handler (outside `src/`):
evaluates conditionals on source and destination; the rename/copy backend
operations are elided from the specified interface. -/
def DavInner.handle_copymove (self : DavInner) (req : Request)
    (_method : Method) : Except DavError Response × List FsCall :=
  let path := self.path req
  let calls : List FsCall := [FsCall.metadata path]
  match req.condTokens with
  | .error s => (.error (.Status s), calls)
  | .ok tokens =>
    match self.ls with
    | some locksystem =>
      match locksystem.check path self.principal false true tokens with
      | .error _ => (.error (.Status 423), calls)
      | .ok _ => (.ok { status := 201 }, calls)
    | none => (.ok { status := 201 }, calls)

/-- The backend-availability gate (src/davhandler.rs lines 405-420): with
the inert backend, a non-OPTIONS operation fails with the close-forcing
405; OPTIONS replaces the allowed set by the sole member OPTIONS, but only
when OPTIONS was itself allowed (or no set was configured). -/
def voidfs_gate (isvoid : Bool) (allow : Option AllowedMethods)
    (method : Method) : Except DavError (Option AllowedMethods) :=
  if isvoid then
    match method with
    | .Options =>
      if (allow.map (fun a => a.allowed .Options)).getD true then
        .ok (some (AllowedMethods.nothing.add .Options))
      else .ok allow
    | _ => .error (.StatusClose 405)
  else .ok allow

/-- The explicit allowed-methods gate (src/davhandler.rs lines 423-428). -/
def allow_rejects (allow : Option AllowedMethods) (m : Method) : Bool :=
  match allow with
  | some a => !(a.allowed m)
  | none => false

/-- Body acquisition (src/davhandler.rs lines 435-438): PUT and PATCH keep
the raw stream and an empty buffer; every other operation drains the body
with cap 65536. -/
def acquire_body (m : Method) (body : List BodyChunk) :
    Except DavError (List Nat) :=
  match m with
  | .Put | .Patch => .ok []
  | _ => read_request body 65536

/-- The unexpected-body check (src/davhandler.rs lines 441-448): operations
other than PUT, PATCH, PROPFIND, PROPPATCH, LOCK accept no body. -/
def body_not_accepted (m : Method) (data : List Nat) : Bool :=
  match m with
  | .Put | .Patch | .PropFind | .PropPatch | .Lock => false
  | _ => data.length > 0

/-- The per-method dispatch table (src/davhandler.rs lines 452-463). -/
def DavInner.dispatch (self : DavInner) (method : Method) (req : Request)
    (body : List BodyChunk) (body_data : List Nat) :
    Except DavError Response × List FsCall :=
  match method with
  | .Options => self.handle_options req
  | .PropFind => self.handle_propfind req body_data
  | .PropPatch => self.handle_proppatch req body_data
  | .MkCol => self.handle_mkcol req
  | .Delete => self.handle_delete req
  | .Lock => self.handle_lock req body_data
  | .Unlock => self.handle_unlock req
  | .Head | .Get => self.handle_get req
  | .Put | .Patch => self.handle_put req body
  | .Copy | .Move => self.handle_copymove req method

/-- `DavInner::handle2` (src/davhandler.rs lines 384-465): classify the
method, run the backend-availability gate then the explicit
allowed-methods gate, validate the path, acquire the body, reject
unexpected bodies, and dispatch to the method handler. -/
def DavInner.handle2 (self : DavInner) (req : Request)
    (body : List BodyChunk) : Except DavError Response × List FsCall :=
  match dav_method req.method with
  | .error e => (.error e, [])
  | .ok method =>
    match voidfs_gate (is_voidfs self.fs) self.allow method with
    | .error e => (.error e, [])
    | .ok allow2 =>
      let self2 := { self with allow := allow2 }
      if allow_rejects self2.allow method then
        (.error (.StatusClose 405), [])
      else
        match DavPath.from_uri req.uri self2.pfx with
        | .error e => (.error e, [])
        | .ok _path =>
          match acquire_body method body with
          | .error e => (.error e, [])
          | .ok body_data =>
            if body_not_accepted method body_data then
              (.error (.Status 415), [])
            else self2.dispatch method req body body_data

/-- The Microsoft user-agent test (src/davhandler.rs lines 341-346). -/
def is_ms_request (req : Request) : Bool :=
  match req.headers.lookup "user-agent" with
  | some v => str_contains v "Microsoft"
  | none => false

/-- The error arm of `DavInner::handle` (src/davhandler.rs lines 354-379):
build a response with the error's mapped status, a `Content-Length: 0`
header and an empty body; for a Microsoft client and a 404 status, attach
the cache-defeating headers first; attach `connection: close` when the
error must close the connection. -/
def error_response (is_ms : Bool) (err : DavError) : Response :=
  let hdrs :=
    if is_ms && err.statuscode == 404 then
      [("Cache-Control", "no-store, no-cache, must-revalidate"),
       ("Progma", "no-cache"),
       ("Expires", "0"),
       ("Vary", "*")]
    else []
  let hdrs := hdrs ++ [("Content-Length", "0")]
  let hdrs := if err.must_close then hdrs ++ [("connection", "close")] else hdrs
  { status := err.statuscode, headers := hdrs, body := [] }

/-- `DavInner::handle` (src/davhandler.rs lines 336-381): run the internal
dispatcher and turn any `DavError` into an HTTP error response; both arms
produce a response. -/
def DavInner.handle (self : DavInner) (req : Request)
    (body : List BodyChunk) : Response × List FsCall :=
  let is_ms := is_ms_request req
  match self.handle2 req body with
  | (.ok resp, calls) => (resp, calls)
  | (.error err, calls) => (error_response is_ms err, calls)

/-- `DavHandler::handle` (src/davhandler.rs lines 196-211): builds the
per-request context via `From<&DavConfig>` — which panics (modelled as
`none`) when no filesystem is configured — then dispatches. -/
def DavHandler.handle (config : DavConfig) (req : Request)
    (body : List BodyChunk) : Option (Response × List FsCall) :=
  (DavInner.fromConfigRef config).map (fun inner => inner.handle req body)

/-- `DavHandler::handle_with` (src/davhandler.rs lines 220-236): merges the
per-request override into the shared config, builds the context via
`From<DavConfig>` (inert-backend default), then dispatches. -/
def DavHandler.handle_with (config : DavConfig) (ov : DavConfig)
    (req : Request) (body : List BodyChunk) : Response × List FsCall :=
  (DavInner.fromConfig (config.merge ov)).handle req body

/-! ## Concrete fixtures -/

/-- A plain GET request. -/
def reqGet : Request :=
  { method := "GET", uri := "/x", headers := [], condTokens := .ok [] }

/-- A MKCOL request whose path lacks the trailing slash. -/
def reqMk : Request :=
  { method := "MKCOL", uri := "/x", headers := [], condTokens := .ok [] }

/-- A MKCOL request whose path is already in collection form. -/
def reqMkSlash : Request :=
  { method := "MKCOL", uri := "/x/", headers := [], condTokens := .ok [] }

/-- A backend on which everything succeeds. -/
def okFs : DavFileSystem :=
  { metadata := fun _ => .ok { dir := true }, create_dir := fun _ => .ok () }

/-- A backend on which everything is missing. -/
def nfFs : DavFileSystem :=
  { metadata := fun _ => .error .NotFound, create_dir := fun _ => .error .NotFound }

/-- A backend on which the target already exists. -/
def existsFs : DavFileSystem :=
  { metadata := fun _ => .ok { dir := true }, create_dir := fun _ => .error .Exists }

/-- A lock store whose check always reports a conflict. -/
def failLs : DavLockSystem := { check := fun _ _ _ _ _ => .error () }

/-- A lock store whose check always passes. -/
def okLs : DavLockSystem := { check := fun _ _ _ _ _ => .ok () }

/-- A context over the all-succeeding backend, no lock store. -/
def inner3 : DavInner :=
  { pfx := "", fs := okFs, ls := none, allow := none, principal := none,
    hide_symlinks := none }

/-- A context over the all-succeeding backend with the always-conflicting
lock store. -/
def lockedInner : DavInner :=
  { pfx := "", fs := okFs, ls := some failLs, allow := none,
    principal := none, hide_symlinks := none }

/-- A context over the existing-target backend. -/
def existsInner : DavInner :=
  { pfx := "", fs := existsFs, ls := none, allow := none, principal := none,
    hide_symlinks := none }

/-- A context with the inert backend and an empty allow-set. -/
def voidOptInner : DavInner :=
  { pfx := "", fs := VoidFs, ls := some okLs,
    allow := some AllowedMethods.nothing, principal := none,
    hide_symlinks := none }

/-- A context with the inert backend and no allow-set. -/
def voidInner : DavInner :=
  { pfx := "", fs := VoidFs, ls := none, allow := none, principal := none,
    hide_symlinks := none }

/-- A context over a live backend with an empty allow-set. -/
def liveDeniedInner : DavInner :=
  { pfx := "", fs := okFs, ls := none,
    allow := some AllowedMethods.nothing, principal := none,
    hide_symlinks := none }

/-- A PUT request. -/
def reqPut : Request :=
  { method := "PUT", uri := "/x", headers := [], condTokens := .ok [] }

/-- An OPTIONS request. -/
def reqOpts : Request :=
  { method := "OPTIONS", uri := "/x", headers := [], condTokens := .ok [] }

/-- A context over the everything-missing backend. -/
def msInner : DavInner :=
  { pfx := "", fs := nfFs, ls := none, allow := none, principal := none,
    hide_symlinks := none }

/-- A GET request from the legacy (Microsoft) client family. -/
def msReq : Request :=
  { method := "GET", uri := "/www",
    headers := [("user-agent", "Microsoft-WebDAV-MiniRedir/10.0")],
    condTokens := .ok [] }

/-! ## Helper lemmas -/

/-- With the inert backend, the backend-availability gate rejects every
non-OPTIONS operation with the close-forcing 405. -/
lemma voidfs_gate_nonoptions (allow : Option AllowedMethods) (method : Method)
    (h : method ≠ .Options) :
    voidfs_gate true allow method = .error (.StatusClose 405) := by
  cases method <;> simp_all [voidfs_gate]

/-- With a live backend the availability gate passes the allow-set through. -/
lemma voidfs_gate_live (allow : Option AllowedMethods) (method : Method) :
    voidfs_gate false allow method = .ok allow := by
  simp [voidfs_gate]

/-- The explicit gate does not reject a method the allow-set permits. -/
lemma allow_rejects_false (allow : Option AllowedMethods) (method : Method)
    (h : ∀ a, allow = some a → a.allowed method = true) :
    allow_rejects allow method = false := by
  cases ha : allow with
  | none => simp [allow_rejects]
  | some a => simp [allow_rejects, h a ha]

/-- `handle2` with the inert backend and a non-OPTIONS method: close-forcing
405 and no backend call. -/
lemma handle2_voidfs (self : DavInner) (req : Request) (body : List BodyChunk)
    (method : Method) (hm : dav_method req.method = .ok method)
    (hvoid : is_voidfs self.fs = true) (hno : method ≠ .Options) :
    self.handle2 req body = (.error (.StatusClose 405), []) := by
  simp only [DavInner.handle2, hm, hvoid, voidfs_gate_nonoptions self.allow method hno]

/-- `handle2` when the availability gate passes but the explicit
allowed-methods gate rejects the (possibly updated) allow-set: close-forcing
405 and no backend call. -/
lemma handle2_explicit_reject (self : DavInner) (req : Request)
    (body : List BodyChunk) (method : Method) (a2 : Option AllowedMethods)
    (hm : dav_method req.method = .ok method)
    (hg : voidfs_gate (is_voidfs self.fs) self.allow method = .ok a2)
    (hrej : allow_rejects a2 method = true) :
    self.handle2 req body = (.error (.StatusClose 405), []) := by
  simp only [DavInner.handle2, hm, hg]
  simp [hrej]

/-- Once both permission gates pass and the path parses, `handle2` is body
acquisition, the unexpected-body check, and dispatch. -/
lemma handle2_after_gates (self : DavInner) (req : Request)
    (body : List BodyChunk) (method : Method) (p : DavPath)
    (hm : dav_method req.method = .ok method)
    (hvoid : is_voidfs self.fs = false)
    (hallow : ∀ a, self.allow = some a → a.allowed method = true)
    (hp : DavPath.from_uri req.uri self.pfx = .ok p) :
    self.handle2 req body =
      (match acquire_body method body with
       | .error e => (.error e, [])
       | .ok body_data =>
         if body_not_accepted method body_data then (.error (.Status 415), [])
         else self.dispatch method req body body_data) := by
  simp only [DavInner.handle2, hm, hvoid, voidfs_gate_live,
    allow_rejects_false self.allow method hallow, hp]
  rfl

/-- Accumulated length of the successful chunks of a body stream. -/
def chunks_total : List BodyChunk → Nat
  | [] => 0
  | .ok ch :: rest => ch.length + chunks_total rest
  | .error _ :: rest => chunks_total rest

/-- A fully successful stream whose accumulated length exceeds the cap makes
the drain loop fail with 413. -/
lemma read_request_loop_overflows (max : Nat) :
    ∀ (body : List BodyChunk) (data : List Nat),
      data.length ≤ max →
      (∀ c ∈ body, ∃ ch, c = Except.ok ch) →
      data.length + chunks_total body > max →
      read_request_loop max data body = .error (.Status 413)
  | [], data, hd, _, hbig => by
      simp only [chunks_total, Nat.add_zero] at hbig
      omega
  | c :: rest, data, hd, hok, hbig => by
      obtain ⟨ch, rfl⟩ := hok c (List.mem_cons_self c rest)
      by_cases hcap : data.length + ch.length > max
      · simp [read_request_loop, hcap]
      · have hlen : (data ++ ch).length ≤ max := by
          simp only [List.length_append]
          omega
        simp only [read_request_loop]
        rw [if_neg hcap]
        exact read_request_loop_overflows max rest (data ++ ch) hlen
          (fun c hc => hok c (List.mem_cons_of_mem _ hc))
          (by simp only [chunks_total, List.length_append] at hbig ⊢; omega)

/-- The drain loop never returns a buffer longer than the cap. -/
lemma read_request_loop_ok_bound (max : Nat) :
    ∀ (body : List BodyChunk) (data out : List Nat),
      data.length ≤ max → read_request_loop max data body = .ok out →
      out.length ≤ max
  | [], data, out, hd, h => by
      simp only [read_request_loop] at h
      cases h
      exact hd
  | c :: rest, data, out, hd, h => by
      cases c with
      | error e => simp [read_request_loop] at h
      | ok ch =>
        by_cases hcap : data.length + ch.length > max
        · simp [read_request_loop, hcap] at h
        · simp only [read_request_loop, if_neg hcap] at h
          exact read_request_loop_ok_bound max rest (data ++ ch) out
            (by simp only [List.length_append]; omega) h

/-- Buffered methods (everything but PUT and PATCH) drain the body with cap
65536. -/
lemma acquire_body_buffered (method : Method) (body : List BodyChunk)
    (h1 : method ≠ .Put) (h2 : method ≠ .Patch) :
    acquire_body method body = read_request body 65536 := by
  cases method <;> simp_all [acquire_body]

/-- A non-empty body on a method that accepts none trips the 415 check. -/
lemma body_not_accepted_true (method : Method) (data : List Nat)
    (h1 : method ≠ .Put) (h2 : method ≠ .Patch) (h3 : method ≠ .PropFind)
    (h4 : method ≠ .PropPatch) (h5 : method ≠ .Lock) (hne : data ≠ []) :
    body_not_accepted method data = true := by
  have hlen : 0 < data.length := List.length_pos.mpr hne
  cases method <;> simp_all [body_not_accepted]

/-- Accumulated length of a single-chunk stream. -/
lemma chunks_total_single (ch : List Nat) :
    chunks_total [Except.ok ch] = ch.length := by
  simp [chunks_total]

/-- The shape of the error response built by the mapper arm of
`DavInner::handle`. -/
lemma error_response_spec (ims : Bool) (err : DavError) :
    (error_response ims err).status = err.statuscode ∧
    ("Content-Length", "0") ∈ (error_response ims err).headers ∧
    (error_response ims err).body = [] ∧
    ((("connection", "close") ∈ (error_response ims err).headers) ↔
      err.must_close = true) ∧
    (err.statuscode = 404 → ims = true →
      ("Cache-Control", "no-store, no-cache, must-revalidate") ∈
          (error_response ims err).headers ∧
        ("Expires", "0") ∈ (error_response ims err).headers ∧
        ("Vary", "*") ∈ (error_response ims err).headers) := by
  unfold error_response
  cases hmc : err.must_close <;>
    cases hms : (ims && err.statuscode == 404) <;>
      simp_all
  all_goals intro h404
  all_goals cases ims <;> simp_all

/-- `DavInner::handle` forwards the error arm through the response mapper. -/
lemma handle_error_arm (self : DavInner) (req : Request)
    (body : List BodyChunk) (err : DavError) (calls : List FsCall)
    (h : self.handle2 req body = (.error err, calls)) :
    self.handle req body = (error_response (is_ms_request req) err, calls) := by
  simp only [DavInner.handle, h]

/-! ## Claims -/

/-- C1: the claim says every configuration — including one in which no
filesystem backend was set, where the filesystem should default to the
inert backend — yields a success or mapped error response from `handle` /
`handle_with`, never an unhandled internal failure.  The code violates
this: `From<&DavConfig> for DavInner`, used by `DavHandler::handle`, runs
`cfg.fs.clone().unwrap()` and panics when the filesystem is unset
(modelled: `DavHandler.handle` returns `none`), while the `handle_with`
path (`From<DavConfig>`) does default to the inert backend and produces
the mapped 405 response. -/
theorem c1_handle_panics_without_filesystem :
    DavHandler.handle {} reqGet [] = none ∧
      DavHandler.handle_with {} {} reqGet [] =
        ({ status := 405,
           headers := [("Content-Length", "0"), ("connection", "close")],
           body := [] }, []) :=
  ⟨rfl, rfl⟩

/-- C2: for a MKCOL request handled with a lock store configured, if the
lock store's `check(path, principal, false, false, tokens)` returns an
error, the request fails with 423 Locked and `create_dir` is never
invoked (the spy trace holds only the metadata lookup, so the
conditional/lock evaluation completed before any mutating backend
call). -/
theorem c2_mkcol_locked_blocks_create_dir (self : DavInner) (req : Request)
    (lsys : DavLockSystem) (tokens : List String)
    (hls : self.ls = some lsys)
    (htok : req.condTokens = .ok tokens)
    (hchk : lsys.check (self.path req) self.principal false false tokens =
      .error ()) :
    (self.handle_mkcol req).fst = .error (.Status 423) ∧
      ∀ p, FsCall.create_dir p ∉ (self.handle_mkcol req).snd := by
  unfold DavInner.handle_mkcol
  rw [htok, hls]
  dsimp only
  rw [hchk]
  simp

/-- C2 witness: concrete context with an always-conflicting lock store. -/
theorem c2_witness :
    (lockedInner.handle_mkcol reqMk).fst = .error (.Status 423) ∧
      ∀ p, FsCall.create_dir p ∉ (lockedInner.handle_mkcol reqMk).snd :=
  c2_mkcol_locked_blocks_create_dir lockedInner reqMk failLs [] rfl rfl rfl

/-- C3 counterexample: the claim says a successful MKCOL whose request path
lacked the trailing slash answers 201 with a Content-Location header.  On
the code, MKCOL on `/x` (no trailing slash) with a succeeding backend
returns 201 with no headers at all, while MKCOL on `/x/` — already in
collection form — is the case that gets the header: the handler's inline
condition is `path.is_collection()`, the reverse of the shared `fixpath`
condition. -/
theorem c3_counterexample :
    (inner3.handle_mkcol reqMk).fst =
        .ok { status := 201, headers := [], body := [] } ∧
      (inner3.handle_mkcol reqMkSlash).fst =
        .ok { status := 201, headers := [("content-location", "/x/")],
              body := [] } :=
  ⟨rfl, rfl⟩

/-- C3 amended: for every MKCOL request on which `create_dir` succeeds, the
response is 201 Created, and it carries the trailing-slash,
prefix-qualified Content-Location header exactly when the request path was
already in collection form; the fixup is the handler's own inline step
keyed on `path.is_collection()`, not the shared `fixpath`
(`metadata is a directory and the path does not already say so`). -/
theorem c3_mkcol_content_location (self : DavInner) (req : Request)
    (tokens : List String)
    (htok : req.condTokens = .ok tokens)
    (hlock : ∀ l, self.ls = some l →
      l.check (self.path req) self.principal false false tokens = .ok ())
    (hok : self.fs.create_dir (self.path req) = .ok ()) :
    (self.handle_mkcol req).fst =
      .ok { status := 201,
            headers :=
              if (self.path req).is_collection then
                [("content-location",
                  ((self.path req).add_slash).as_url_string_with_pfx)]
              else [],
            body := [] } := by
  unfold DavInner.handle_mkcol
  rw [htok]
  dsimp only
  have hcreate : ∀ calls, self.mkcol_create (self.path req) calls =
      (.ok { status := 201,
             headers :=
               if (self.path req).is_collection then
                 [("content-location",
                   ((self.path req).add_slash).as_url_string_with_pfx)]
               else [],
             body := [] }, calls ++ [FsCall.create_dir (self.path req)]) := by
    intro calls
    unfold DavInner.mkcol_create
    rw [hok]
    by_cases hc : (self.path req).is_collection
    · simp [hc]
    · simp [hc]
  cases hls : self.ls with
  | none => simp [hcreate]
  | some l =>
    dsimp only
    rw [hlock l hls]
    simp [hcreate]

/-- C3 witness: a MKCOL on `/x/` (collection form) gets the header. -/
theorem c3_witness :
    (inner3.handle_mkcol reqMkSlash).fst =
      .ok { status := 201, headers := [("content-location", "/x/")],
            body := [] } := by
  have h := c3_mkcol_content_location inner3 reqMkSlash []
    rfl (fun l hl => Option.noConfusion hl) rfl
  rw [show (inner3.path reqMkSlash).is_collection = true from rfl] at h
  simpa using h

/-- An oversized single chunk (65537 bytes). -/
def bigChunk : List Nat := List.replicate 65537 0

/-- A body stream whose accumulated length exceeds the cap. -/
def bigBody : List BodyChunk := [.ok bigChunk]

/-- The parsed path of `/x` under the empty prefix. -/
def pathX : DavPath := { segs := ["x"], coll := false, pfx := "" }

/-- C4 counterexample: the claim says that with the inert backend the
effective allowed-methods set is forced to the sole member OPTIONS for an
OPTIONS request.  On the code this only happens when the explicit
allow-set permits OPTIONS: with an empty allow-set the availability gate
leaves the set unchanged (still excluding OPTIONS) and the explicit gate
then rejects the OPTIONS request with 405. -/
theorem c4_counterexample :
    (voidOptInner.handle2 reqOpts []).fst = .error (.StatusClose 405) ∧
      voidfs_gate true (some AllowedMethods.nothing) .Options =
        .ok (some AllowedMethods.nothing) ∧
      AllowedMethods.nothing.allowed .Options = false :=
  ⟨rfl, rfl, rfl⟩

/-- C4 amended: with the inert backend every non-OPTIONS operation fails
with the close-forcing 405 before any body read or backend call — for
every allow-set (so a missing backend wins over a permissive allow-list)
and for every body stream (so the body is untouched); for OPTIONS, the
availability gate forces the effective allowed-methods set to the sole
member OPTIONS whenever the explicit set permits OPTIONS or no explicit
set is configured; when the explicit set excludes OPTIONS, the set is left
unchanged and the explicit gate (which runs second) rejects the request. -/
theorem c4_voidfs_gate_behavior (self : DavInner) (req : Request)
    (body : List BodyChunk) (method : Method)
    (allow : Option AllowedMethods)
    (hm : dav_method req.method = .ok method) :
    (is_voidfs self.fs = true → method ≠ .Options →
      self.handle2 req body = (.error (.StatusClose 405), [])) ∧
    ((allow = none ∨ ∃ a, allow = some a ∧ a.allowed .Options = true) →
      ∃ a2, voidfs_gate true allow .Options = .ok (some a2) ∧
        ∀ m, a2.allowed m = (m == Method.Options)) := by
  constructor
  · intro hvoid hno
    exact handle2_voidfs self req body method hm hvoid hno
  · intro h
    refine ⟨AllowedMethods.nothing.add .Options, ?_, ?_⟩
    · rcases h with hnone | ⟨a, ha, hopt⟩
      · subst hnone
        simp [voidfs_gate]
      · subst ha
        simp [voidfs_gate, hopt]
    · intro m
      simp [AllowedMethods.add, AllowedMethods.nothing, AllowedMethods.allowed]

/-- C4 witness: a GET against the inert backend is 405-closed without the
(erroring) body ever being read, and with no allow-set configured the gate
forces `{OPTIONS}`. -/
theorem c4_witness :
    voidInner.handle2 reqGet [.error ()] = (.error (.StatusClose 405), []) ∧
      ∃ a2, voidfs_gate true (none : Option AllowedMethods) .Options =
          .ok (some a2) ∧
        ∀ m, a2.allowed m = (m == Method.Options) := by
  have h := c4_voidfs_gate_behavior voidInner reqGet [.error ()] .Get none rfl
  exact ⟨h.1 rfl (by decide), h.2 (Or.inl rfl)⟩

/-- C5: on a buffered method (anything but PUT/PATCH) that has passed the
permission gates and path validation, a fully successful body stream whose
accumulated length exceeds 65536 bytes fails the request with 413 before
any handler runs (no backend call is traced); and the drain loop never
returns a buffer longer than the cap, so the chunk that crossed the cap is
never appended. -/
theorem c5_body_cap_413 (self : DavInner) (req : Request)
    (body : List BodyChunk) (method : Method) (p : DavPath)
    (hm : dav_method req.method = .ok method)
    (hput : method ≠ .Put) (hpatch : method ≠ .Patch)
    (hvoid : is_voidfs self.fs = false)
    (hallow : ∀ a, self.allow = some a → a.allowed method = true)
    (hp : DavPath.from_uri req.uri self.pfx = .ok p)
    (hok : ∀ c ∈ body, ∃ ch, c = Except.ok ch)
    (hbig : chunks_total body > 65536) :
    self.handle2 req body = (.error (.Status 413), []) ∧
      ∀ (body2 : List BodyChunk) (data : List Nat),
        read_request body2 65536 = .ok data → data.length ≤ 65536 := by
  constructor
  · rw [handle2_after_gates self req body method p hm hvoid hallow hp,
      acquire_body_buffered method body hput hpatch,
      show read_request body 65536 = .error (.Status 413) from
        read_request_loop_overflows 65536 body [] (by simp) hok
          (by simpa using hbig)]
  · intro body2 data h
    exact read_request_loop_ok_bound 65536 body2 [] data (by simp) h

/-- C5 witness: a MKCOL with a 65537-byte body is rejected with 413 and an
empty backend trace. -/
theorem c5_witness :
    inner3.handle2 reqMk bigBody = (.error (.Status 413), []) := by
  have h := c5_body_cap_413 inner3 reqMk bigBody .MkCol pathX rfl
    (by decide) (by decide) rfl (fun a ha => Option.noConfusion ha) rfl
    (fun c hc => ⟨bigChunk, List.mem_singleton.mp hc⟩)
    (by
      rw [show bigBody = [Except.ok bigChunk] from rfl, chunks_total_single,
        show bigChunk = List.replicate 65537 0 from rfl,
        List.length_replicate]
      omega)
  exact h.1

/-- C6: on a method outside {PUT, PATCH, PROPFIND, PROPPATCH, LOCK} that
has passed the permission gates and path validation, a drained non-empty
body fails the request with 415 before any method handler (and hence any
backend call) runs. -/
theorem c6_unexpected_body_415 (self : DavInner) (req : Request)
    (body : List BodyChunk) (method : Method) (p : DavPath)
    (data : List Nat)
    (hm : dav_method req.method = .ok method)
    (h1 : method ≠ .Put) (h2 : method ≠ .Patch) (h3 : method ≠ .PropFind)
    (h4 : method ≠ .PropPatch) (h5 : method ≠ .Lock)
    (hvoid : is_voidfs self.fs = false)
    (hallow : ∀ a, self.allow = some a → a.allowed method = true)
    (hp : DavPath.from_uri req.uri self.pfx = .ok p)
    (hread : read_request body 65536 = .ok data)
    (hne : data ≠ []) :
    self.handle2 req body = (.error (.Status 415), []) := by
  rw [handle2_after_gates self req body method p hm hvoid hallow hp,
    acquire_body_buffered method body h1 h2, hread]
  simp [body_not_accepted_true method data h1 h2 h3 h4 h5 hne]

/-- C6 witness: a MKCOL carrying a one-byte body is rejected with 415. -/
theorem c6_witness :
    inner3.handle2 reqMk [.ok [60]] = (.error (.Status 415), []) :=
  c6_unexpected_body_415 inner3 reqMk [.ok [60]] .MkCol pathX [60] rfl
    (by decide) (by decide) (by decide) (by decide) (by decide) rfl
    (fun a ha => Option.noConfusion ha) rfl rfl (by decide)

/-- C7: for every MKCOL request that reaches `create_dir` (evaluator
passed, lock check passed), the backend result maps to the response as:
`Exists` → 405, `NotFound` → 409, any other backend error → `FsError`
carrying that error, success → 201 Created. -/
theorem c7_mkcol_status_mapping (self : DavInner) (req : Request)
    (tokens : List String)
    (htok : req.condTokens = .ok tokens)
    (hlock : ∀ l, self.ls = some l →
      l.check (self.path req) self.principal false false tokens = .ok ()) :
    (self.fs.create_dir (self.path req) = .error .Exists →
      (self.handle_mkcol req).fst = .error (.Status 405)) ∧
    (self.fs.create_dir (self.path req) = .error .NotFound →
      (self.handle_mkcol req).fst = .error (.Status 409)) ∧
    (∀ n, self.fs.create_dir (self.path req) = .error (.Other n) →
      (self.handle_mkcol req).fst = .error (.FsErrorE (.Other n))) ∧
    (self.fs.create_dir (self.path req) = .ok () →
      ∃ resp, (self.handle_mkcol req).fst = .ok resp ∧ resp.status = 201) := by
  have hred : self.handle_mkcol req =
      self.mkcol_create (self.path req) [FsCall.metadata (self.path req)] := by
    unfold DavInner.handle_mkcol
    rw [htok]
    dsimp only
    cases hls : self.ls with
    | none => rfl
    | some l =>
      dsimp only
      rw [hlock l hls]
  rw [hred]
  unfold DavInner.mkcol_create
  refine ⟨fun h => by rw [h], fun h => by rw [h], fun n h => by rw [h], ?_⟩
  intro h
  rw [h]
  by_cases hc : (self.path req).is_collection
  · simp only [hc]
    exact ⟨_, rfl, rfl⟩
  · simp only [hc]
    exact ⟨_, rfl, rfl⟩

/-- C7 witness: MKCOL against a backend whose `create_dir` reports
`Exists` answers 405. -/
theorem c7_witness :
    (existsInner.handle_mkcol reqMk).fst = .error (.Status 405) :=
  (c7_mkcol_status_mapping existsInner reqMk [] rfl
    (fun _l hl => Option.noConfusion hl)).1 rfl

/-- C8: for every request on which internal dispatch yields a `DavError`,
the returned response has exactly the error's mapped status code, a
`Content-Length: 0` header and an empty body; it carries
`connection: close` if and only if the error is the must-close variant;
and when the mapped status is 404 and the user-agent identifies the legacy
(Microsoft) client family, the cache-defeating headers `Cache-Control`,
`Expires: 0` and `Vary: *` are additionally attached. -/
theorem c8_error_mapper (self : DavInner) (req : Request)
    (body : List BodyChunk) (err : DavError) (calls : List FsCall)
    (h : self.handle2 req body = (.error err, calls)) :
    (self.handle req body).fst.status = err.statuscode ∧
      ("Content-Length", "0") ∈ (self.handle req body).fst.headers ∧
      (self.handle req body).fst.body = [] ∧
      ((("connection", "close") ∈ (self.handle req body).fst.headers) ↔
        err.must_close = true) ∧
      (err.statuscode = 404 → is_ms_request req = true →
        ("Cache-Control", "no-store, no-cache, must-revalidate") ∈
            (self.handle req body).fst.headers ∧
          ("Expires", "0") ∈ (self.handle req body).fst.headers ∧
          ("Vary", "*") ∈ (self.handle req body).fst.headers) := by
  rw [handle_error_arm self req body err calls h]
  exact error_response_spec (is_ms_request req) err

/-- C8 witness: a missing resource requested by a Microsoft client — the
404 error response carries Content-Length 0, the cache-defeating headers,
and (as `FsError` is not a must-close variant) no `connection: close`. -/
theorem c8_witness :
    (msInner.handle msReq []).fst.status = 404 ∧
      ("Content-Length", "0") ∈ (msInner.handle msReq []).fst.headers ∧
      (msInner.handle msReq []).fst.body = [] ∧
      ¬ (("connection", "close") ∈ (msInner.handle msReq []).fst.headers) ∧
      ("Cache-Control", "no-store, no-cache, must-revalidate") ∈
        (msInner.handle msReq []).fst.headers ∧
      ("Expires", "0") ∈ (msInner.handle msReq []).fst.headers ∧
      ("Vary", "*") ∈ (msInner.handle msReq []).fst.headers := by
  have h := c8_error_mapper msInner msReq [] (.FsErrorE .NotFound)
    [FsCall.metadata { segs := ["www"], coll := false, pfx := "" }] rfl
  refine ⟨h.1, h.2.1, h.2.2.1, ?_, ?_⟩
  · intro hc
    have := h.2.2.2.1.mp hc
    simp [DavError.must_close] at this
  · exact h.2.2.2.2 rfl rfl

/-- C10: a request rejected by either method-permission gate — the
no-filesystem gate or the explicit allowed-methods gate — produces the
close-forcing `StatusClose` 405, so the resulting response carries a
`connection: close` header even though no body or transport error
occurred. -/
theorem c10_gate_rejections_close (self : DavInner) (req : Request)
    (body : List BodyChunk) (method : Method)
    (hm : dav_method req.method = .ok method) :
    (is_voidfs self.fs = true → method ≠ .Options →
      (self.handle req body).fst.status = 405 ∧
        ("connection", "close") ∈ (self.handle req body).fst.headers) ∧
    (∀ a2, voidfs_gate (is_voidfs self.fs) self.allow method = .ok a2 →
      allow_rejects a2 method = true →
      (self.handle req body).fst.status = 405 ∧
        ("connection", "close") ∈ (self.handle req body).fst.headers) := by
  have hclose : ∀ calls,
      self.handle2 req body = (.error (.StatusClose 405), calls) →
      (self.handle req body).fst.status = 405 ∧
        ("connection", "close") ∈ (self.handle req body).fst.headers := by
    intro calls h2
    rw [handle_error_arm self req body (.StatusClose 405) calls h2]
    have hs := error_response_spec (is_ms_request req) (.StatusClose 405)
    exact ⟨hs.1, hs.2.2.2.1.mpr rfl⟩
  constructor
  · intro hvoid hno
    exact hclose [] (handle2_voidfs self req body method hm hvoid hno)
  · intro a2 hg hrej
    exact hclose [] (handle2_explicit_reject self req body method a2 hm hg hrej)

/-- C10 witness: a GET that the explicit (empty) allow-set rejects over a
live backend, a PUT rejected by the no-filesystem gate, and an OPTIONS
rejected by the explicit gate under the void backend (whose availability
gate left the OPTIONS-excluding allow-set unchanged) all close the
connection. -/
theorem c10_witness :
    ((liveDeniedInner.handle reqGet []).fst.status = 405 ∧
      ("connection", "close") ∈ (liveDeniedInner.handle reqGet []).fst.headers) ∧
    ((voidInner.handle reqPut []).fst.status = 405 ∧
      ("connection", "close") ∈ (voidInner.handle reqPut []).fst.headers) ∧
    ((voidOptInner.handle reqOpts []).fst.status = 405 ∧
      ("connection", "close") ∈ (voidOptInner.handle reqOpts []).fst.headers) := by
  refine ⟨?_, ?_, ?_⟩
  · exact (c10_gate_rejections_close liveDeniedInner reqGet [] .Get rfl).2
      (some AllowedMethods.nothing) rfl rfl
  · exact (c10_gate_rejections_close voidInner reqPut [] .Put rfl).1 rfl
      (by decide)
  · exact (c10_gate_rejections_close voidOptInner reqOpts [] .Options rfl).2
      (some AllowedMethods.nothing) rfl rfl

/-- Base configuration with prefix `/dav` and no lock store. -/
def cfgDav : DavConfig := { pfx := some "/dav" }

/-- Override configuration supplying only a lock store. -/
def cfgLsX : DavConfig := { ls := some okLs }

/-- Override configuration with prefix `/other`. -/
def cfgOther : DavConfig := { pfx := some "/other" }

/-- C9: merging a base configuration with an override yields, field-wise
(prefix, fs, ls, allow, principal, hide_symlinks), the override's field
when present and the base's field otherwise. -/
theorem c9_merge_field_semantics (base ov : DavConfig) :
    ((∀ x, ov.pfx = some x → (base.merge ov).pfx = some x) ∧
      (ov.pfx = none → (base.merge ov).pfx = base.pfx)) ∧
    ((∀ x, ov.fs = some x → (base.merge ov).fs = some x) ∧
      (ov.fs = none → (base.merge ov).fs = base.fs)) ∧
    ((∀ x, ov.ls = some x → (base.merge ov).ls = some x) ∧
      (ov.ls = none → (base.merge ov).ls = base.ls)) ∧
    ((∀ x, ov.allow = some x → (base.merge ov).allow = some x) ∧
      (ov.allow = none → (base.merge ov).allow = base.allow)) ∧
    ((∀ x, ov.principal = some x → (base.merge ov).principal = some x) ∧
      (ov.principal = none → (base.merge ov).principal = base.principal)) ∧
    ((∀ x, ov.hide_symlinks = some x → (base.merge ov).hide_symlinks = some x) ∧
      (ov.hide_symlinks = none →
        (base.merge ov).hide_symlinks = base.hide_symlinks)) := by
  refine ⟨⟨?_, ?_⟩, ⟨?_, ?_⟩, ⟨?_, ?_⟩, ⟨?_, ?_⟩, ⟨?_, ?_⟩, ⟨?_, ?_⟩⟩ <;>
    first
      | (intro x h; simp [DavConfig.merge, h, Option.or])
      | (intro h; simp [DavConfig.merge, h, Option.or])

/-- C9 witness: the spec's own example — base (prefix `/dav`, no lock
store) merged with an override carrying only lock store X keeps the prefix
and takes the lock store; an override with prefix `/other` wins the
prefix. -/
theorem c9_witness :
    (cfgDav.merge cfgLsX).pfx = some "/dav" ∧
      (cfgDav.merge cfgLsX).ls = some okLs ∧
      (cfgDav.merge cfgOther).pfx = some "/other" := by
  have h1 := c9_merge_field_semantics cfgDav cfgLsX
  have h2 := c9_merge_field_semantics cfgDav cfgOther
  exact ⟨h1.1.2 rfl, h1.2.2.1.1 okLs rfl, h2.1.1 "/other" rfl⟩

end Webdav
